import Mathlib

/-!
Verification of the zeno-atom state container core (`src/index.tsx`).

Shallow embedding of the accessor-resolution and update mechanism of the
`createAtom` function: the Proxy `get` handler, the updater dispatch through
the structural-sharing engine, the React context hook, and the provider
mount/render behaviour.

Conventions of the embedding:
* Plain JS objects used as state are finite association lists `Obj` with
  own-property read returning `Option String` (`none` models `undefined`).
* A Proxy property key is a string or a symbol (`PropKey`).
* One run of an updater procedure is an `UpdRun`: the final contents of the
  mutable draft (partial mutations included), an optional raised error, and
  the procedure's JS return value (a `void`-typed JS function may still
  return a value at runtime).
* The structural-sharing collaborator `produce` (immer) is not part of the
  repository's sources; it is modelled from the spec's contract for it.
-/

namespace ZenoAtom

/-- A Proxy property key: JS property access in a Proxy `get` trap carries
either a string or a symbol key (`typeof propName != 'string'`). -/
inductive PropKey where
  | str (s : String)
  | sym (id : Nat)

/-- One run of an updater procedure on a draft: the draft's final contents
(including mutations made before a raise), an optional raised error, and the
procedure's own return value (if it did not raise). -/
structure UpdRun (State E Ret : Type) where
  draft : State
  err : Option E
  ret : Option Ret

/-- An updater from the Atom Definition: `(state, ...params) => void`, the
state (draft) argument first, then the extra arguments. -/
def Updater (State E Ret Arg : Type) : Type :=
  State → List Arg → UpdRun State E Ret

/-- The `AtomInterface` bundle from the source: `state`, optional
`selectors`, `updaters` and `callbacks` (absent maps modelled as `[]`). -/
structure AtomInterface (State E Ret Arg Cb : Type) where
  state : State
  selectors : List (String × (State → Ret)) := []
  updaters : List (String × Updater State E Ret Arg) := []
  callbacks : List (String × Cb) := []

/-- `atom.callbacks?.[propName]` from the source. -/
def lookupCallback {State E Ret Arg Cb : Type}
    (atom : AtomInterface State E Ret Arg Cb) (n : String) : Option Cb :=
  atom.callbacks.lookup n

/-- `atom.updaters?.[propName]` from the source. -/
def lookupUpdater {State E Ret Arg Cb : Type}
    (atom : AtomInterface State E Ret Arg Cb) (n : String) :
    Option (Updater State E Ret Arg) :=
  atom.updaters.lookup n

/-- Modelled from the spec: the structural-sharing collaborator
`produce(base, recipe) -> next` (immer), which is an external dependency and
not part of `src/`. Its contract: the recipe's in-place writes to the draft
become the next state; if the recipe raises, the transaction is aborted (the
partially mutated draft is discarded), the base state is left unchanged and
the failure propagates. The recipe's JS return value lies outside this
contract and plays no role. -/
def produce {State E Ret : Type} (base : State)
    (recipe : State → UpdRun State E Ret) : Except E State :=
  match (recipe base).err with
  | some e => Except.error e
  | none => Except.ok (recipe base).draft

/-- The result of the Proxy `get` trap: `undefined` (non-string key), the
raw current state (`propName == 'state'`), a callback passed through
unmodified, or the freshly created dispatch closure for an updater (which
captures the updater and the current state). -/
inductive GetResult (State E Ret Arg Cb : Type) where
  | undef
  | state (s : State)
  | callback (c : Cb)
  | updaterTrigger (u : Updater State E Ret Arg) (s : State)

/-- The Proxy `get` handler of the AtomHookValue (source lines 175-201):
non-string keys yield `undefined`; `"state"` yields the current state
directly; otherwise the callback map is consulted, then the updater map;
with no entry anywhere an `Error` is thrown. -/
def proxyGet {State E Ret Arg Cb : Type}
    (atom : AtomInterface State E Ret Arg Cb) (state : State)
    (propName : PropKey) : Except String (GetResult State E Ret Arg Cb) :=
  match propName with
  | PropKey.sym _ => Except.ok GetResult.undef
  | PropKey.str n =>
    if n = "state" then Except.ok (GetResult.state state)
    else
      match lookupCallback atom n with
      | some c => Except.ok (GetResult.callback c)
      | none =>
        match lookupUpdater atom n with
        | some u => Except.ok (GetResult.updaterTrigger u state)
        | none =>
          Except.error
            ("unexpected access to " ++ n ++ " in AtomHookValue proxy")

/-- The body of the dispatch closure returned for an updater name (source
lines 192-196): `produce(state, draft => update(draft, ...params))`. An
error means the exception propagated to the caller; `ok next` means
`setState(nextState)` was reached with `next`. -/
def updaterCall {State E Ret Arg : Type} (u : Updater State E Ret Arg)
    (state : State) (params : List Arg) : Except E State :=
  produce state (fun draft => u draft params)

/-- The Scope Instance's stored state after one call of the dispatch
closure: on success the state passed to `setState`; on a raise, `setState`
is never reached and the stored state is unchanged. -/
def storedAfterCall {State E Ret Arg : Type} (state : State)
    (u : Updater State E Ret Arg) (params : List Arg) : State :=
  match updaterCall u state params with
  | Except.ok next => next
  | Except.error _ => state

/-- Plain JS object with string-valued own properties, as used for concrete
state values in the examples. -/
abbrev Obj : Type := List (String × String)

/-- JS own-property read on a plain object: `none` models `undefined` for an
absent property. -/
def getField (o : Obj) (n : String) : Option String :=
  o.lookup n

/-- JS own-property assignment `o[n] = v` on a plain object. -/
def setField (o : Obj) (n v : String) : Obj :=
  match o with
  | [] => [(n, v)]
  | (k, w) :: rest =>
    if k = n then (n, v) :: rest else (k, w) :: setField rest n v

/-- Reading `view.state.n`: the Proxy is asked for `"state"` and the
resulting raw state object is read with plain JS property access. -/
def viewStateField {E Ret Arg Cb : Type} (atom : AtomInterface Obj E Ret Arg Cb)
    (state : Obj) (n : String) : Option String :=
  match proxyGet atom state (PropKey.str "state") with
  | Except.ok (GetResult.state s) => getField s n
  | _ => none

/-- A React context slot of value type `V`: either the default put in at
`createContext` time — here `null as any`, modelled by `nullDefault` — or an
actual value supplied by a mounted Provider. -/
inductive CtxValue (V : Type) where
  | nullDefault
  | provided (v : V)

/-- The default value handed to `createContext` in the source:
`createContext<AtomHookValue<...>>(null as any)`. -/
def createContextDefault (V : Type) : CtxValue V :=
  CtxValue.nullDefault

/-- React's `useContext`: returns the nearest mounted Provider's value, or
the context's default when no Provider encloses the call site. `current` is
`none` when no scope-establishing component has mounted above the caller. -/
def useContext {V : Type} (dflt : CtxValue V) (current : Option (CtxValue V)) :
    CtxValue V :=
  current.getD dflt

/-- The hook returned by `createAtom`:
`function useAtom() { return useContext(atomContext) }`. -/
def useAtom (V : Type) (current : Option (CtxValue V)) : CtxValue V :=
  useContext (createContextDefault V) current

/-- Normalisation of the `createAtom` argument into Variant 2 form (source
line 145): `typeof args == 'object' ? () => args : args`. -/
def normalizeArgs {Props State E Ret Arg Cb : Type}
    (args : Sum (AtomInterface State E Ret Arg Cb)
      (Props → AtomInterface State E Ret Arg Cb)) :
    Props → AtomInterface State E Ret Arg Cb :=
  match args with
  | Sum.inl atom => fun _ => atom
  | Sum.inr f => f

/-- The Scope Instance's stored state right after the Provider mounts:
`const atom = createAtom(atomProps); const [state, setState] = useState(atom.state)`.
The initial state is always `atom.state`; the Provider has no initial-state
override prop, so every prop beyond `children` only reaches a Variant-2
definition function. -/
def initialMountState {Props State E Ret Arg Cb : Type}
    (create : Props → AtomInterface State E Ret Arg Cb) (props : Props) :
    State :=
  (create props).state

/-- A mounted Provider instance: the React `useState` slot holding the
current state, and the number of times the component body has executed
`createAtom(atomProps)` (source line 167) so far. -/
structure ProviderInstance (State : Type) where
  stored : State
  atomConstructions : Nat

/-- One render of the Provider body. The call `createAtom(atomProps)` sits
unconditionally in the body, so it runs on every render (counted by
`atomConstructions`); `useState(atom.state)` takes `atom.state` only on the
mounting render and afterwards returns the stored state unchanged. -/
def renderProvider {Props State E Ret Arg Cb : Type}
    (create : Props → AtomInterface State E Ret Arg Cb) (props : Props)
    (inst : Option (ProviderInstance State)) : ProviderInstance State :=
  let atom := create props
  match inst with
  | none => { stored := atom.state, atomConstructions := 1 }
  | some i => { stored := i.stored, atomConstructions := i.atomConstructions + 1 }

/-- The Provider instance after `n` renders of the same mount (`0` renders:
not mounted yet). -/
def renderTimes {Props State E Ret Arg Cb : Type}
    (create : Props → AtomInterface State E Ret Arg Cb) (props : Props) :
    Nat → Option (ProviderInstance State)
  | 0 => none
  | Nat.succ k => some (renderProvider create props (renderTimes create props k))

/-!
Concrete Atom Definitions used as test inputs.
-/

/-- The spec's example selector `fullName(s) = s.first + " " + s.last`
(an absent field would read as the JS string `"undefined"`). -/
def fullNameSelector (s : Obj) : String :=
  ((getField s "first").getD "undefined") ++ " "
    ++ ((getField s "last").getD "undefined")

/-- Updater from the spec's selector-transparency example: sets `first` to
its extra argument. -/
def setFirstUpdater : Updater Obj String String String :=
  fun s params =>
    { draft := setField s "first" (params.headD "undefined")
      err := none
      ret := none }

/-- The Atom Definition of the spec's selector-transparency example: state
`{first: "A", last: "B"}`, selector `fullName`, updater `setFirst`. -/
def exAtom : AtomInterface Obj String String String String :=
  { state := [("first", "A"), ("last", "B")]
    selectors := [("fullName", fullNameSelector)]
    updaters := [("setFirst", setFirstUpdater)] }

/-- An updater that mutates the draft (`counter := 99`) and then raises. -/
def failingUpdater : Updater Obj String String String :=
  fun s _ =>
    { draft := setField s "counter" "99"
      err := some "boom"
      ret := none }

/-- Counter state `{counter: "0"}` used by several examples. -/
def counterState : Obj :=
  [("counter", "0")]

/-- An updater that sets `counter` to its extra argument and returns
nothing. -/
def incUpdaterNoReturn : Updater Obj String String String :=
  fun s params =>
    { draft := setField s "counter" (params.headD "undefined")
      err := none
      ret := none }

/-- The same mutation as `incUpdaterNoReturn`, but the procedure also
returns the JS value `"42"` (legal at runtime for a `void`-typed
function). -/
def incUpdaterWithReturn : Updater Obj String String String :=
  fun s params =>
    { draft := setField s "counter" (params.headD "undefined")
      err := none
      ret := some "42" }

/-- An atom carrying the name `go` both as a callback and as an updater,
plus an updater `inc` not shadowed by any callback. -/
def shadowAtom : AtomInterface Obj String String String String :=
  { state := counterState
    updaters := [("go", incUpdaterNoReturn), ("inc", incUpdaterNoReturn)]
    callbacks := [("go", "theGoCallback")] }

/-- Static counter definition for the Provider examples. -/
def counterAtom : AtomInterface Obj String String String String :=
  { state := counterState }

/-- `createAtom` called with the static `counterAtom` bundle (Variant 1):
props of the Provider are ignored by the definition. -/
def counterCreate : Obj → AtomInterface Obj String String String String :=
  normalizeArgs (Sum.inl counterAtom)

/-- A Variant-2 (function form) definition: scope args to Atom Definition. -/
def counterCreateFn : Obj → AtomInterface Obj String String String String :=
  fun _ => { state := counterState }

/-!
Theorems settling the claims.
-/

/-- C1 (counterexample): with the spec's example atom (state
`{first: "A", last: "B"}`, selector `fullName`), the Proxy returns the raw
state for `"state"`, so `view.state.fullName` is `undefined` (`none`), not
`"A B"` — even though the declared selector would compute `"A B"` — and it
is still `undefined` after the updater sets `first` to `"C"`. -/
theorem c1_selector_counterexample :
    proxyGet exAtom exAtom.state (PropKey.str "state")
      = Except.ok (GetResult.state exAtom.state)
    ∧ viewStateField exAtom exAtom.state "fullName" = none
    ∧ viewStateField exAtom exAtom.state "fullName" ≠ some "A B"
    ∧ fullNameSelector exAtom.state = "A B"
    ∧ viewStateField exAtom
        (storedAfterCall exAtom.state setFirstUpdater ["C"]) "fullName" = none
    ∧ getField (storedAfterCall exAtom.state setFirstUpdater ["C"]) "first"
        = some "C" := by
  refine ⟨rfl, rfl, by decide, rfl, rfl, rfl⟩

/-- C1 (amended): reading a property `n` on `view.state` forwards to the raw
state object's own property `n`, for every atom — in particular the declared
selectors are never consulted by the Proxy, so a selector name reads as
`undefined` unless the state object happens to own such a field. -/
theorem c1_state_bypasses_selectors {E Ret Arg Cb : Type}
    (atom : AtomInterface Obj E Ret Arg Cb) (s : Obj) (n : String) :
    viewStateField atom s n = getField s n := by
  rfl

/-- C2 (counterexample): calling the hook with no enclosing Provider mounted
returns the context's default — the `null` passed to `createContext` — so a
default value is substituted and no error is raised at the hook call. -/
theorem c2_unscoped_counterexample :
    useAtom Unit none = CtxValue.nullDefault
    ∧ createContextDefault Unit = CtxValue.nullDefault :=
  ⟨rfl, rfl⟩

/-- C2 (amended): for every value type, calling `useAtom` where no
scope-establishing component has mounted returns the `null` context default
(the hook itself raises nothing); the failure can only surface later, when
the caller uses the null view. -/
theorem c2_unscoped_returns_null (V : Type) :
    useAtom V none = createContextDefault V := by
  rfl

/-- C3: if an updater raises during its synchronous execution, the dispatch
leaves the Scope Instance's stored state exactly at its pre-dispatch value
(partial draft mutations are discarded with the aborted transaction) and the
same error propagates synchronously to the dispatch call site. -/
theorem c3_updater_failure_atomic {State E Ret Arg : Type}
    (u : Updater State E Ret Arg) (s : State) (params : List Arg) (e : E)
    (h : (u s params).err = some e) :
    storedAfterCall s u params = s
    ∧ updaterCall u s params = Except.error e := by
  have hc : updaterCall u s params = Except.error e := by
    simp only [updaterCall, produce, h]
  exact ⟨by simp only [storedAfterCall, hc], hc⟩

/-- C3 (witness): a concrete updater that writes `counter := 99` into the
draft and then raises `"boom"`: the partial write is visible in the draft,
yet the committed state is unchanged and the error propagates. -/
theorem c3_updater_failure_atomic_witness :
    (failingUpdater counterState []).err = some "boom"
    ∧ (failingUpdater counterState []).draft = [("counter", "99")]
    ∧ (storedAfterCall counterState failingUpdater [] = counterState
       ∧ updaterCall failingUpdater counterState [] = Except.error "boom") :=
  ⟨rfl, rfl, c3_updater_failure_atomic failingUpdater counterState [] "boom" rfl⟩

/-- C4: for an updater name `n` (not `"state"`, not shadowed by a callback)
bound to updater `u`, the Proxy returns a dispatch trigger capturing `u` and
the current state, and calling that trigger with `params` evaluates
`u state params` — the current state draft prepended to the caller's
arguments — committing the draft on success and propagating a raise. -/
theorem c4_updater_trigger_prepends_state {State E Ret Arg Cb : Type}
    (atom : AtomInterface State E Ret Arg Cb) (s : State) (n : String)
    (u : Updater State E Ret Arg)
    (hs : n ≠ "state")
    (hcb : lookupCallback atom n = none)
    (hu : lookupUpdater atom n = some u) :
    proxyGet atom s (PropKey.str n) = Except.ok (GetResult.updaterTrigger u s)
    ∧ ∀ params, updaterCall u s params
        = Option.elim ((u s params).err)
            (Except.ok (u s params).draft) Except.error := by
  constructor
  · simp [proxyGet, hs, hcb, hu]
  · intro params
    cases h : (u s params).err <;> simp [updaterCall, produce, h]

/-- C4 (witness): the trigger for `inc` on the concrete counter atom,
exercised at argument list `["7"]`. -/
theorem c4_updater_trigger_prepends_state_witness :
    proxyGet shadowAtom counterState (PropKey.str "inc")
      = Except.ok (GetResult.updaterTrigger incUpdaterNoReturn counterState)
    ∧ updaterCall incUpdaterNoReturn counterState ["7"]
        = Option.elim ((incUpdaterNoReturn counterState ["7"]).err)
            (Except.ok (incUpdaterNoReturn counterState ["7"]).draft)
            Except.error :=
  ⟨(c4_updater_trigger_prepends_state shadowAtom counterState "inc"
      incUpdaterNoReturn (by decide) rfl rfl).1,
   (c4_updater_trigger_prepends_state shadowAtom counterState "inc"
      incUpdaterNoReturn (by decide) rfl rfl).2 ["7"]⟩

/-- C5: two updaters that perform the same draft mutations and raise the
same way (differing at most in their JS return value) produce the same
dispatch result and the same committed state — an updater's return value is
discarded by the structural-sharing engine, the next state being determined
solely by the draft mutations. -/
theorem c5_updater_return_ignored {State E Ret Arg : Type}
    (u₁ u₂ : Updater State E Ret Arg) (s : State) (params : List Arg)
    (hd : (u₁ s params).draft = (u₂ s params).draft)
    (he : (u₁ s params).err = (u₂ s params).err) :
    updaterCall u₁ s params = updaterCall u₂ s params
    ∧ storedAfterCall s u₁ params = storedAfterCall s u₂ params := by
  have h1 : updaterCall u₁ s params = updaterCall u₂ s params := by
    simp only [updaterCall, produce, hd, he]
  exact ⟨h1, by simp only [storedAfterCall, h1]⟩

/-- C5 (witness): the same `counter := "5"` mutation with return value
`none` versus return value `"42"` commits the same state. -/
theorem c5_updater_return_ignored_witness :
    (incUpdaterNoReturn counterState ["5"]).ret = none
    ∧ (incUpdaterWithReturn counterState ["5"]).ret = some "42"
    ∧ (updaterCall incUpdaterNoReturn counterState ["5"]
         = updaterCall incUpdaterWithReturn counterState ["5"]
       ∧ storedAfterCall counterState incUpdaterNoReturn ["5"]
         = storedAfterCall counterState incUpdaterWithReturn ["5"]) :=
  ⟨rfl, rfl, c5_updater_return_ignored incUpdaterNoReturn incUpdaterWithReturn
      counterState ["5"] rfl rfl⟩

/-- C6: a string property that is not `"state"`, names no callback and
names no updater makes the Proxy `get` handler throw its access error —
never a silently returned `undefined`. -/
theorem c6_unknown_member_throws {State E Ret Arg Cb : Type}
    (atom : AtomInterface State E Ret Arg Cb) (s : State) (n : String)
    (hs : n ≠ "state")
    (hcb : lookupCallback atom n = none)
    (hu : lookupUpdater atom n = none) :
    proxyGet atom s (PropKey.str n)
      = Except.error
          ("unexpected access to " ++ n ++ " in AtomHookValue proxy") := by
  simp [proxyGet, hs, hcb, hu]

/-- C6 (witness): accessing the undeclared name `nope` on the concrete
counter atom throws. -/
theorem c6_unknown_member_throws_witness :
    proxyGet shadowAtom counterState (PropKey.str "nope")
      = Except.error
          ("unexpected access to " ++ "nope" ++ " in AtomHookValue proxy") :=
  c6_unknown_member_throws shadowAtom counterState "nope" (by decide) rfl rfl

/-- C7 (code evaluated at the failing input): mounting the static counter
definition with a prop carrying a different desired state `{counter: "5"}`
still yields the definition's own state `{counter: "0"}` — the Provider has
no initial-state override. -/
theorem c7_provider_ignores_override :
    initialMountState counterCreate [("counter", "5")] = [("counter", "0")]
    ∧ initialMountState counterCreate [("counter", "5")] ≠ [("counter", "5")] := by
  exact ⟨rfl, by decide⟩

/-- C8 (code evaluated at the failing input): after two renders of one
mounted Provider instance (mount plus one re-render), the body has executed
`createAtom(atomProps)` twice, not once. -/
theorem c8_atom_constructed_every_render :
    (renderTimes counterCreateFn [] 2).map ProviderInstance.atomConstructions
      = some 2
    ∧ (renderTimes counterCreateFn [] 2).map ProviderInstance.atomConstructions
      ≠ some 1 := by
  exact ⟨rfl, by decide⟩

/-- C9: when a non-`"state"` name is declared both as a callback and as an
updater, the Proxy resolves it to the callback, unmodified — the callback
lookup precedes the updater lookup, leaving the updater unreachable under
that name. -/
theorem c9_callback_shadows_updater {State E Ret Arg Cb : Type}
    (atom : AtomInterface State E Ret Arg Cb) (s : State) (n : String)
    (c : Cb) (u : Updater State E Ret Arg)
    (hs : n ≠ "state")
    (hcb : lookupCallback atom n = some c)
    (_hu : lookupUpdater atom n = some u) :
    proxyGet atom s (PropKey.str n) = Except.ok (GetResult.callback c) := by
  simp [proxyGet, hs, hcb]

/-- C9 (witness): the name `go`, declared both as callback and updater in
the concrete atom, resolves to the callback. -/
theorem c9_callback_shadows_updater_witness :
    proxyGet shadowAtom counterState (PropKey.str "go")
      = Except.ok (GetResult.callback "theGoCallback") :=
  c9_callback_shadows_updater shadowAtom counterState "go" "theGoCallback"
    incUpdaterNoReturn (by decide) rfl rfl

/-- C10: a non-string (symbol) property key on the Accessor View returns
`undefined` without raising, bypassing both the member lookups and the
unknown-member error branch. -/
theorem c10_symbol_key_undefined {State E Ret Arg Cb : Type}
    (atom : AtomInterface State E Ret Arg Cb) (s : State) (i : Nat) :
    proxyGet atom s (PropKey.sym i) = Except.ok GetResult.undef := by
  rfl

end ZenoAtom
